import Mathlib

/-!
Shallow embedding of the file-intake and processing-coordination core of
Auto-Transcript-Agent (src/monitor.py and src/transcriber.py), with theorems
checking the design-spec claims against it.

Conventions of the embedding:
* filesystem state is passed explicitly (directory contents as lists of names,
  file existence as Booleans);
* the remote transcription call is an oracle `attempts : Nat -> Except String String`
  giving the outcome of each attempt (`.ok text` or a raised error message);
* wall-clock timestamps are `Nat`s supplied by the caller; `time.sleep` shows up
  only through the counters that the claims talk about (number of inter-attempt
  delays, number of one-second size samples);
* Python exceptions are `Except String`; a Lean function returning a plain value
  (no `Except`) embeds Python code that cannot raise past its own frame.
-/

namespace AutoTranscript

/-- Processing outcome recorded in the ledger (`status` field of
`ProcessedFile` in src/monitor.py: a string among success / error / skipped). -/
inductive Status where
  | success
  | error
  | skipped
deriving DecidableEq, Repr

/-- `ProcessedFile` dataclass from src/monitor.py (path rendered as a string,
`processed_at` as a Nat timestamp). -/
structure ProcessedFile where
  path : String
  processed_at : Nat
  status : Status
  error_message : Option String := none
  processing_id : Option String := none
deriving DecidableEq, Repr

/-- A path, split the way `pathlib` exposes it: `stem` plus `suffix`
(the suffix includes its leading dot, or is empty). `name = stem ++ suffix`. -/
structure FileName where
  stem : String
  suffix : String
deriving DecidableEq, Repr

/-- `Path.name`. -/
def FileName.name (fp : FileName) : String := fp.stem ++ fp.suffix

/-- ASCII lowercasing of one character: the effect of Python's `str.lower`
on the characters that can occur in a path suffix. -/
def lowerChar (c : Char) : Char :=
  if c.toNat < 65 then c
  else if c.toNat ≤ 90 then Char.ofNat (c.toNat + 32)
  else c

/-- Python `str.lower`. -/
def lowerString (s : String) : String := ⟨s.data.map lowerChar⟩

/-- One character list is a leading segment of another. -/
def listLeads : List Char → List Char → Bool
  | [], _ => true
  | _ :: _, [] => false
  | a :: as, b :: bs => a == b && listLeads as bs

/-- Python `s.startswith(p)`. -/
def strStartsWith (s p : String) : Bool := listLeads p.data s.data

/-- `AudioTranscriber.SUPPORTED_EXTENSIONS` (src/transcriber.py line 24). -/
def SUPPORTED_EXTENSIONS : List String :=
  [".mp3", ".wav", ".m4a", ".flac", ".aac", ".ogg", ".webm"]

/-- `AudioTranscriber.is_supported_file` (src/transcriber.py lines 61-71):
`file_path.suffix.lower() in SUPPORTED_EXTENSIONS`. -/
def is_supported_file (fp : FileName) : Bool :=
  lowerString fp.suffix ∈ SUPPORTED_EXTENSIONS

/-! ## Detection-path eligibility (src/monitor.py)

Each detection path decides, per candidate path, whether it invokes the
per-file pipeline `_process_file`.  The Booleans `isFile` (the path is an
existing regular file), `inProcessingSet` (the watchdog handler's own
`processing_files` dedupe set already holds the key) and `recentlyProcessed`
(`_is_recently_processed` returned True) are environment facts the code reads. -/

/-- `AudioFileHandler._handle_file_event` (src/monitor.py lines 46-88): the
event-driven path fires the callback iff the event is for a non-directory,
the key is not in `processing_files`, the extension is supported, and the
name does not start with "." or "~". -/
def handle_file_event_triggers (inProcessingSet : Bool) (fp : FileName)
    (isFile : Bool) : Bool :=
  isFile && !inProcessingSet && is_supported_file fp &&
    !(strStartsWith fp.name "." || strStartsWith fp.name "~")

/-- `FolderMonitor._poll_directory` per-file condition (src/monitor.py lines
199-207): `is_file and is_supported_file and not _is_recently_processed`. -/
def poll_directory_triggers (fp : FileName) (isFile recentlyProcessed : Bool) :
    Bool :=
  isFile && is_supported_file fp && !recentlyProcessed

/-- `FolderMonitor._process_existing_files` per-file condition (src/monitor.py
lines 181-183): `is_file and is_supported_file`. -/
def process_existing_files_triggers (fp : FileName) (isFile : Bool) : Bool :=
  isFile && is_supported_file fp

/-! ## Processing ledger (src/monitor.py `_record_processed_file`) -/

/-- The retention bound on `processed_files` (src/monitor.py line 390). -/
def LEDGER_LIMIT : Nat := 1000

/-- The append step of `_record_processed_file` (src/monitor.py lines 386-391):
append, then `if len > 1000: keep the last 1000` (`processed_files[-1000:]`). -/
def ledgerAppend (ledger : List ProcessedFile) (r : ProcessedFile) :
    List ProcessedFile :=
  let l := ledger ++ [r]
  if LEDGER_LIMIT < l.length then l.drop (l.length - LEDGER_LIMIT) else l

/-- `FolderMonitor._record_processed_file` (src/monitor.py lines 367-391). -/
def record_processed_file (ledger : List ProcessedFile) (fp : FileName)
    (now : Nat) (status : Status) (error_message : Option String)
    (processing_id : Option String) : List ProcessedFile :=
  ledgerAppend ledger
    { path := fp.name, processed_at := now, status := status,
      error_message := error_message, processing_id := processing_id }

/-! ## Transcription client (src/transcriber.py) -/

/-- The retry loop of `AudioTranscriber.transcribe_file` (src/transcriber.py
lines 97-140).  `attempts i` is the outcome of the i-th call to the remote
API: `.ok text` (line 100-115; an empty `text` is returned as `""` at lines
107-109, still a success) or `.error msg` (a raised `TranscriptError`, an
internal status=="error", or any other exception — all three reach a retry
branch that sleeps `retry_delay` unless this was the last attempt).  `fuel`
counts the attempts left, `i` the current attempt index, `delays` the
inter-attempt sleeps performed so far.  Returns the overall outcome and the
total number of inter-attempt delays. -/
def transcribeLoop (attempts : Nat → Except String String) (maxRetries : Nat) :
    Nat → Nat → Nat → Except String String × Nat
  | 0, _, delays =>
      (.error s!"Transcription failed after {maxRetries} attempts", delays)
  | fuel + 1, i, delays =>
      match attempts i with
      | .ok t => (.ok t, delays)
      | .error e =>
          if fuel = 0 then
            (.error s!"Transcription failed after {maxRetries} attempts: {e}",
             delays)
          else
            transcribeLoop attempts maxRetries fuel (i + 1) (delays + 1)

/-- `AudioTranscriber.transcribe_file` (src/transcriber.py lines 73-140):
pre-checks existence and supported extension, then runs the retry loop. -/
def transcribe_file (fp : FileName) (fileExists : Bool)
    (attempts : Nat → Except String String) (maxRetries : Nat) :
    Except String String × Nat :=
  if !fileExists then
    (.error s!"Audio file does not exist: {fp.name}", 0)
  else if !(is_supported_file fp) then
    (.error s!"Unsupported file format: {fp.suffix}", 0)
  else
    transcribeLoop attempts maxRetries maxRetries 0 0

/-- `AudioTranscriber.save_transcript` (src/transcriber.py lines 159-179):
writes the transcript, raising on failure.  `saveOk` is the oracle for the
write succeeding. -/
def save_transcript (saveOk : Bool) (transcript : String) (out : FileName) :
    Except String Unit :=
  if saveOk then .ok ()
  else .error s!"Failed to save transcript to {out.name}"

/-- Result dictionary of `transcribe_and_save` (src/transcriber.py lines
209-216), omitting the wall-clock `duration_seconds` field. -/
structure TResult where
  status : String
  input_file : String
  output_file : String
  transcript_length : Nat
  error : Option String
deriving DecidableEq, Repr

/-- `AudioTranscriber.transcribe_and_save` (src/transcriber.py lines 181-243):
transcribe, then save; on success returns the success dictionary and the
content written to the output file; on any failure the exception is re-raised
(the error dictionary built at lines 229-236 is logged, not returned). -/
def transcribe_and_save (fp out : FileName) (fileExists : Bool)
    (attempts : Nat → Except String String) (maxRetries : Nat)
    (saveOk : Bool) : Except String (TResult × String) :=
  match transcribe_file fp fileExists attempts maxRetries with
  | (.error e, _) => .error e
  | (.ok t, _) =>
      match save_transcript saveOk t out with
      | .error e => .error e
      | .ok () =>
          .ok ({ status := "success", input_file := fp.name,
                 output_file := out.name, transcript_length := t.length,
                 error := none }, t)

/-! ## Stability waiter (src/monitor.py `_wait_for_file_stability`) -/

/-- Outcome of one `file_path.stat().st_size` call at a given sample index. -/
inductive StatResult where
  | size (n : Nat)
  | notFound
  | statError
deriving DecidableEq, Repr

/-- Why the waiter returned. -/
inductive WaitExit where
  | stable
  | disappeared
  | statFailed
  | timedOut
deriving DecidableEq, Repr

/-- What `_wait_for_file_stability` observably did: how many size samples it
took before returning, and why it returned. -/
structure WaitResult where
  samples : Nat
  exit : WaitExit
deriving DecidableEq, Repr

/-- The loop of `_wait_for_file_stability` (src/monitor.py lines 307-331).
Each iteration takes one size sample and then sleeps one second, so the
elapsed time at iteration `i` is `i` seconds and the `while` guard
`time - start < max_wait` becomes `i < max_wait`, embedded as the fuel
`max_wait - i`.  `last` is `last_size` (initialized to 0 at line 308),
`count` is `stable_count`; on an equal sample the count is incremented and
the loop breaks once it reaches 3; on a changed sample the count resets to
0; a missing file or any stat error breaks out immediately. -/
def stabilityGo (stat : Nat → StatResult) :
    Nat → Nat → Nat → Nat → WaitResult
  | 0, i, _, _ => ⟨i, .timedOut⟩
  | fuel + 1, i, last, count =>
      match stat i with
      | .size n =>
          if n = last then
            if 3 ≤ count + 1 then ⟨i + 1, .stable⟩
            else stabilityGo stat fuel (i + 1) n (count + 1)
          else stabilityGo stat fuel (i + 1) n 0
      | .notFound => ⟨i + 1, .disappeared⟩
      | .statError => ⟨i + 1, .statFailed⟩

/-- `FolderMonitor._wait_for_file_stability` (src/monitor.py lines 299-331),
with `stat i` the stat outcome at the i-th one-second sample and `max_wait`
defaulting to 30. -/
def wait_for_file_stability (stat : Nat → StatResult) (max_wait : Nat := 30) :
    WaitResult :=
  stabilityGo stat max_wait 0 0 0

/-! ## Relocator (src/monitor.py `_move_to_done`) -/

/-- The `while done_path.exists()` collision loop (src/monitor.py lines
349-354): starting from candidate `cand` and counter `c`, as long as the
candidate name is taken in the done directory, replace it with
`stem_c ++ suffix` and increment the counter.  `fuel` bounds the recursion;
`move_to_done` supplies enough fuel for the loop to always reach a free
name. -/
def collisionLoop (doneDir : List String) (stem suffix : String) :
    Nat → Nat → String → String
  | 0, _, cand => cand
  | fuel + 1, c, cand =>
      if cand ∈ doneDir then
        collisionLoop doneDir stem suffix fuel (c + 1)
          (stem ++ "_" ++ toString c ++ suffix)
      else cand

/-- `FolderMonitor._move_to_done` (src/monitor.py lines 333-365) over an
explicit done-directory listing.  If the source no longer exists, return
immediately with no move (`none`); otherwise rename the source to the first
collision-free name and return it together with the updated listing (the
pre-existing entries are untouched). -/
def move_to_done (srcExists : Bool) (doneDir : List String) (fp : FileName) :
    Option String × List String :=
  if !srcExists then (none, doneDir)
  else
    let dest := collisionLoop doneDir fp.stem fp.suffix (doneDir.length + 1) 1
      fp.name
    (some dest, doneDir ++ [dest])

/-! ## Sequential per-file pipeline (src/monitor.py `_process_file`)

One processing attempt, run to completion in isolation.  The concurrent
behaviour of two overlapping attempts is modelled separately below as a
small-step machine; this sequential embedding exposes the data detail
(ledger record contents, done-directory contents) that the machine elides. -/

/-- The state `_process_file` reads and writes: the registry entry for this
path (`_currently_processing`), the ledger, the done-directory listing,
whether the source file is still present in the input directory, and how
often `transcriber.transcribe_and_save` has been invoked. -/
structure ProcState where
  registered : Bool
  ledger : List ProcessedFile
  doneDir : List String
  srcInInput : Bool
  transcribeCalls : Nat
deriving DecidableEq, Repr

/-- `FolderMonitor._process_file` (src/monitor.py lines 237-297) for path
`fp` with correlation id `pid` at time `now`.  `outputExists` is the
`output_path.exists()` check at line 272; `tres` is the outcome of the
`transcribe_and_save` call at line 281 (`.error e` when it raises).  The
function is total: every exception from the pipeline body is caught at line
291 and turned into an error record, and the `finally` block always clears
the registry entry. -/
def process_file (fp : FileName) (pid : String) (now : Nat)
    (outputExists : Bool) (tres : Except String String) (s : ProcState) :
    ProcState :=
  if s.registered then s
  else if !s.srcInInput then { s with registered := false }
  else if outputExists then
    let moved := move_to_done s.srcInInput s.doneDir fp
    { s with
      doneDir := moved.2, srcInInput := false,
      ledger := record_processed_file s.ledger fp now .skipped
        (some "Transcript already exists") (some pid),
      registered := false }
  else
    match tres with
    | .ok _ =>
        let moved := move_to_done s.srcInInput s.doneDir fp
        { s with
          transcribeCalls := s.transcribeCalls + 1,
          doneDir := moved.2, srcInInput := false,
          ledger := record_processed_file s.ledger fp now .success none
            (some pid),
          registered := false }
    | .error e =>
        { s with
          transcribeCalls := s.transcribeCalls + 1,
          ledger := record_processed_file s.ledger fp now .error (some e)
            (some pid),
          registered := false }

/-! ## Concurrent intake machine

Two threads of control (the event-driven watcher callback and the periodic
poller) both invoke `_process_file` on the same path.  Each `with
self._processing_lock:` block and each other shared-state access of
src/monitor.py lines 237-297 is one atomic step; the scheduler interleaves
the two threads arbitrarily.  The transcription outcome is fixed by the
Boolean `tOk` (the oracle for the `transcribe_and_save` call), so the machine
covers the success and the failure run of the pipeline, and the two
file-existence checks read the shared Booleans `fileE` and `outE`. -/

/-- Thread identity; also serves as the correlation id stored in the
in-flight registry (`_currently_processing[file_key] = processing_id`). -/
inductive Tid where
  | A
  | B
deriving DecidableEq, Repr, Fintype

/-- Program counter inside `_process_file` (src/monitor.py lines 237-297). -/
inductive PC where
  | reg        -- lines 248-255: atomic check-then-insert under the lock
  | exCheck    -- line 261: `file_path.exists()`
  | stability  -- line 266: `_wait_for_file_stability` (no shared effect)
  | outCheck   -- line 272: `output_path.exists()`
  | moveSkip   -- line 274: `_move_to_done` on the skip branch
  | recSkip    -- lines 275-277: record the skipped outcome
  | transcribe -- line 281: `transcribe_and_save`
  | moveDone   -- line 284: `_move_to_done` after success
  | recSucc    -- line 287: record the success outcome
  | recErr     -- line 293: record the error outcome (except branch)
  | cleanup    -- lines 296-297: atomic unconditional pop under the lock
  | halt       -- returned
deriving DecidableEq, Repr

/-- Machine state: registry entry for the path, the two filesystem Booleans,
the transcription oracle, the ledger statuses in append order, the number of
transcription-client invocations, and each thread's program counter. -/
structure MState where
  reg : Option Tid
  fileE : Bool
  outE : Bool
  tOk : Bool
  ledger : List Status
  calls : Nat
  pcA : PC
  pcB : PC
deriving DecidableEq, Repr

/-- Program counter of a thread. -/
def MState.pc (s : MState) : Tid → PC
  | .A => s.pcA
  | .B => s.pcB

/-- Replace a thread's program counter. -/
def MState.setPc (s : MState) : Tid → PC → MState
  | .A, p => { s with pcA := p }
  | .B, p => { s with pcB := p }

/-- One atomic step of thread `t` (a no-op once the thread has returned).
Each branch is the direct transcription of the corresponding statement of
`_process_file`. -/
def threadStep (s : MState) (t : Tid) : MState :=
  match s.pc t with
  | .reg =>
      match s.reg with
      | some _ => s.setPc t .halt
      | none => { s with reg := some t }.setPc t .exCheck
  | .exCheck => if s.fileE then s.setPc t .stability else s.setPc t .cleanup
  | .stability => s.setPc t .outCheck
  | .outCheck => if s.outE then s.setPc t .moveSkip else s.setPc t .transcribe
  | .moveSkip => { s with fileE := false }.setPc t .recSkip
  | .recSkip => { s with ledger := s.ledger ++ [Status.skipped] }.setPc t .cleanup
  | .transcribe =>
      if s.tOk then { s with calls := s.calls + 1, outE := true }.setPc t .moveDone
      else { s with calls := s.calls + 1 }.setPc t .recErr
  | .moveDone => { s with fileE := false }.setPc t .recSucc
  | .recSucc => { s with ledger := s.ledger ++ [Status.success] }.setPc t .cleanup
  | .recErr => { s with ledger := s.ledger ++ [Status.error] }.setPc t .cleanup
  | .cleanup => { s with reg := none }.setPc t .halt
  | .halt => s

/-- Run the machine under a schedule (the list of thread ids picked by the
scheduler, in order). -/
def runSched (s : MState) : List Tid → MState
  | [] => s
  | t :: rest => runSched (threadStep s t) rest

/-- Initial state: neither thread has started, the registry is empty, no
records, no client calls. -/
def initState (fileE outE tOk : Bool) : MState :=
  { reg := none, fileE := fileE, outE := outE, tOk := tOk, ledger := [],
    calls := 0, pcA := .reg, pcB := .reg }

/-- Both successors of a state. -/
def succs (s : MState) : List MState := [threadStep s .A, threadStep s .B]

/-- Breadth-first closure of a state list under `threadStep`. -/
def reachFrom : Nat → List MState → List MState
  | 0, acc => acc
  | fuel + 1, acc =>
      let fresh := ((acc.map succs).flatten.eraseDups).filter
        (fun c => !acc.contains c)
      match fresh with
      | [] => acc
      | _ => reachFrom fuel (acc ++ fresh)

/-- States reachable from the initial state with the given filesystem facts
and transcription oracle. -/
def ReachOf (fileE outE tOk : Bool) : List MState :=
  reachFrom 40 [initState fileE outE tOk]

/-- States reachable from the fresh-file, empty-output, successful-client
initial state (the scenario of the at-most-once test). -/
def ReachC1 : List MState := ReachOf true false true

/-- Both threads have returned. -/
def bothDone (s : MState) : Prop := s.pcA = .halt ∧ s.pcB = .halt

instance (s : MState) : Decidable (bothDone s) :=
  inferInstanceAs (Decidable (_ ∧ _))

/-- Thread `t` is inside a processing attempt: past the successful
registration step and not yet past the registry cleanup. -/
def MState.active (s : MState) (t : Tid) : Prop :=
  s.pc t ≠ .reg ∧ s.pc t ≠ .halt

instance (s : MState) (t : Tid) : Decidable (s.active t) :=
  inferInstanceAs (Decidable (_ ∧ _))

/-!
# Theorems
-/

set_option maxRecDepth 100000

/-- Exhaustive facts about the reachable states of the intake machine, for
every initial filesystem/oracle combination: the initial state is reached,
the reach set is closed under both threads' steps, a thread is inside a
processing attempt exactly while the registry maps the path to that thread,
after both threads return the registry entry is gone, and the two threads
are never inside an attempt at the same time. -/
theorem machine_reach_facts :
    ∀ fileE outE tOk : Bool,
      initState fileE outE tOk ∈ ReachOf fileE outE tOk ∧
      ∀ c ∈ ReachOf fileE outE tOk,
        (∀ t : Tid, threadStep c t ∈ ReachOf fileE outE tOk) ∧
        (∀ t : Tid, (c.active t ↔ c.reg = some t)) ∧
        (bothDone c → c.reg = none) ∧
        ¬(c.active .A ∧ c.active .B) := by
  set_option maxHeartbeats 4000000 in decide

/-- A run from a member of a step-closed state list stays in the list. -/
theorem runSched_mem {R : List MState}
    (hR : ∀ c ∈ R, ∀ t : Tid, threadStep c t ∈ R) :
    ∀ (sched : List Tid) (s : MState), s ∈ R → runSched s sched ∈ R := by
  intro sched
  induction sched with
  | nil => exact fun s hs => hs
  | cons t rest ih => exact fun s hs => ih _ (hR s hs t)

/-- In the at-most-once scenario, every completed run ends with exactly one
success record and one client call. -/
theorem reachC1_final :
    ∀ c ∈ ReachC1, bothDone c →
      c.ledger = [Status.success] ∧ c.calls = 1 := by
  set_option maxHeartbeats 4000000 in decide

/-- C1: in the scenario of the at-most-once property — the source file is
present, no transcript exists yet, and the transcription client succeeds —
firing the event-driven and the poll detection concurrently on the same path
(two threads entering `_process_file`, interleaved by an arbitrary
scheduler) always ends with exactly one pipeline execution: the ledger holds
exactly one (success) record and the transcription client was invoked
exactly once, because the is-it-registered check and the registration insert
are a single atomic step (src/monitor.py lines 248-255). -/
theorem at_most_once_pipeline (sched : List Tid)
    (h : bothDone (runSched (initState true false true) sched)) :
    (runSched (initState true false true) sched).ledger = [Status.success] ∧
    (runSched (initState true false true) sched).calls = 1 := by
  have hclosed : ∀ c ∈ ReachC1, ∀ t : Tid, threadStep c t ∈ ReachC1 :=
    fun c hc => ((machine_reach_facts true false true).2 c hc).1
  have hmem : runSched (initState true false true) sched ∈ ReachC1 :=
    runSched_mem hclosed sched _ (machine_reach_facts true false true).1
  exact reachC1_final _ hmem h

/-- Witness for C1: the schedule that runs thread A to completion and then
thread B; both threads finish and the run shows one record, one call. -/
theorem at_most_once_pipeline_witness :
    bothDone (runSched (initState true false true)
      [.A, .A, .A, .A, .A, .A, .A, .A, .B, .B, .B]) ∧
    ((runSched (initState true false true)
      [.A, .A, .A, .A, .A, .A, .A, .A, .B, .B, .B]).ledger =
        [Status.success] ∧
     (runSched (initState true false true)
      [.A, .A, .A, .A, .A, .A, .A, .A, .B, .B, .B]).calls = 1) :=
  ⟨by decide, at_most_once_pipeline _ (by decide)⟩

/-- C3: along every schedule, from every initial combination of file
existence, transcript existence and transcription outcome (covering the
success, error-record, missing-file and skip exit paths), a thread is inside
its processing attempt exactly while the registry maps the path to that
attempt's id, once both attempts have ended the path is no longer
registered, and at most one attempt per path is active at any time. -/
theorem registry_tracks_attempt (fileE outE tOk : Bool) (sched : List Tid) :
    (∀ t : Tid,
      ((runSched (initState fileE outE tOk) sched).active t ↔
        (runSched (initState fileE outE tOk) sched).reg = some t)) ∧
    (bothDone (runSched (initState fileE outE tOk) sched) →
      (runSched (initState fileE outE tOk) sched).reg = none) ∧
    ¬((runSched (initState fileE outE tOk) sched).active .A ∧
      (runSched (initState fileE outE tOk) sched).active .B) := by
  have hfacts := machine_reach_facts fileE outE tOk
  have hclosed : ∀ c ∈ ReachOf fileE outE tOk, ∀ t : Tid,
      threadStep c t ∈ ReachOf fileE outE tOk :=
    fun c hc => (hfacts.2 c hc).1
  have hmem : runSched (initState fileE outE tOk) sched ∈
      ReachOf fileE outE tOk :=
    runSched_mem hclosed sched _ hfacts.1
  exact ⟨(hfacts.2 _ hmem).2.1, (hfacts.2 _ hmem).2.2.1,
    (hfacts.2 _ hmem).2.2.2⟩

/-- Witness for C3: the empty schedule from the fresh-file success
scenario. -/
theorem registry_tracks_attempt_witness :
    (∀ t : Tid,
      ((runSched (initState true false true) []).active t ↔
        (runSched (initState true false true) []).reg = some t)) ∧
    (bothDone (runSched (initState true false true) []) →
      (runSched (initState true false true) []).reg = none) ∧
    ¬((runSched (initState true false true) []).active .A ∧
      (runSched (initState true false true) []).active .B) :=
  registry_tracks_attempt true false true []

/-- C2 counterexample: the file named ".foo.mp3" (a supported extension, name
starting with a dot) is passed over by the event-driven path but IS picked up
by both the periodic poller and the startup sweep, so it is not true that
every detection path filters out dot-prefixed names before processing. -/
theorem tempfile_filter_counterexample :
    strStartsWith (FileName.name ⟨".foo", ".mp3"⟩) "." = true ∧
    poll_directory_triggers ⟨".foo", ".mp3"⟩ true false = true ∧
    process_existing_files_triggers ⟨".foo", ".mp3"⟩ true = true ∧
    handle_file_event_triggers false ⟨".foo", ".mp3"⟩ true = false := by
  decide

/-- C2 (amended): only the event-driven watcher filters out names starting
with "." or "~" — it never triggers the pipeline for such a file — while the
periodic poller and the startup sweep ignore the name prefix entirely: their
trigger decisions are unchanged when the dot/tilde-prefixed name is replaced
by any other name with the same suffix. -/
theorem tempfile_filter_event_only (fp fq : FileName)
    (inSet isFile recent : Bool)
    (h : (strStartsWith fp.name "." || strStartsWith fp.name "~") = true)
    (hsuf : fq.suffix = fp.suffix) :
    handle_file_event_triggers inSet fp isFile = false ∧
    poll_directory_triggers fp isFile recent =
      poll_directory_triggers fq isFile recent ∧
    process_existing_files_triggers fp isFile =
      process_existing_files_triggers fq isFile := by
  refine ⟨?_, ?_, ?_⟩
  · simp [handle_file_event_triggers, h]
  · simp [poll_directory_triggers, is_supported_file, hsuf]
  · simp [process_existing_files_triggers, is_supported_file, hsuf]

/-- Witness for the amended C2 at the dot-prefixed file ".foo.mp3" against
the clean name "clean.mp3". -/
theorem tempfile_filter_event_only_witness :
    ((strStartsWith (FileName.name ⟨".foo", ".mp3"⟩) "." ||
       strStartsWith (FileName.name ⟨".foo", ".mp3"⟩) "~") = true) ∧
    ((FileName.mk "clean" ".mp3").suffix = (FileName.mk ".foo" ".mp3").suffix) ∧
    (handle_file_event_triggers false ⟨".foo", ".mp3"⟩ true = false ∧
     poll_directory_triggers ⟨".foo", ".mp3"⟩ true false =
       poll_directory_triggers ⟨"clean", ".mp3"⟩ true false ∧
     process_existing_files_triggers ⟨".foo", ".mp3"⟩ true =
       process_existing_files_triggers ⟨"clean", ".mp3"⟩ true) :=
  ⟨by decide, rfl,
    tempfile_filter_event_only ⟨".foo", ".mp3"⟩ ⟨"clean", ".mp3"⟩
      false true false (by decide) rfl⟩

/-- With strictly growing size samples the stability counter never reaches 3,
so the waiter runs until its time budget is spent: one sample per second for
`fuel` more seconds from sample index `i`. -/
theorem stabilityGo_growing (fuel : Nat) :
    ∀ i last : Nat, last ≤ i →
      stabilityGo (fun j => .size (j + 1)) fuel i last 0 =
        ⟨i + fuel, .timedOut⟩ := by
  induction fuel with
  | zero => intro i last h; rfl
  | succ n ih =>
      intro i last h
      have hne : ¬(i + 1 = last) := by omega
      simp only [stabilityGo, if_neg hne, ih (i + 1) (i + 1) le_rfl]
      congr 1
      omega

/-- C4 counterexample: for a file whose size is the constant 5 from the very
first sample, the waiter does not return upon the third identical reading —
it takes a fourth sample, because the first reading is compared against the
initialized previous-size 0 and does not advance the counter. -/
theorem stability_third_reading_counterexample :
    wait_for_file_stability (fun _ => .size 5) 30 = ⟨4, .stable⟩ ∧
    (wait_for_file_stability (fun _ => .size 5) 30).samples ≠ 3 := by
  decide

/-- C4 (amended): the waiter samples once per second and keeps a
consecutive-equal-size counter that resets on every size change, returning
as soon as the counter reaches 3 or the time budget `maxWait` elapses.  The
first sample is compared against the initialized previous-size 0, so for a
file of constant nonzero size it returns upon the fourth sample, for a file
of constant size 0 upon the third, and when the size keeps changing it times
out after `maxWait` one-second samples. -/
theorem stability_wait_behaviour (sz maxWait : Nat) (hs : sz ≠ 0)
    (h4 : 4 ≤ maxWait) :
    wait_for_file_stability (fun _ => .size sz) maxWait = ⟨4, .stable⟩ ∧
    wait_for_file_stability (fun _ => .size 0) maxWait = ⟨3, .stable⟩ ∧
    wait_for_file_stability (fun i => .size (i + 1)) maxWait =
      ⟨maxWait, .timedOut⟩ := by
  obtain ⟨k, rfl⟩ : ∃ k, maxWait = k + 4 := ⟨maxWait - 4, by omega⟩
  refine ⟨?_, ?_, ?_⟩
  · simp [wait_for_file_stability, stabilityGo, hs]
  · simp [wait_for_file_stability, stabilityGo]
  · rw [wait_for_file_stability, stabilityGo_growing (k + 4) 0 0 le_rfl]
    simp

/-- Witness for the amended C4 at constant size 5 with the default 30-second
budget. -/
theorem stability_wait_behaviour_witness :
    (5 : Nat) ≠ 0 ∧ (4 : Nat) ≤ 30 ∧
    (wait_for_file_stability (fun _ => .size 5) 30 = ⟨4, .stable⟩ ∧
     wait_for_file_stability (fun _ => .size 0) 30 = ⟨3, .stable⟩ ∧
     wait_for_file_stability (fun i => .size (i + 1)) 30 =
       ⟨30, .timedOut⟩) :=
  ⟨by decide, by decide, stability_wait_behaviour 5 30 (by decide) (by decide)⟩

/-- One ledger append keeps exactly the newest `LEDGER_LIMIT` entries of the
extended list. -/
theorem ledgerAppend_eq (l : List ProcessedFile) (r : ProcessedFile) :
    ledgerAppend l r = (l ++ [r]).drop ((l ++ [r]).length - LEDGER_LIMIT) := by
  show (if LEDGER_LIMIT < (l ++ [r]).length then
      (l ++ [r]).drop ((l ++ [r]).length - LEDGER_LIMIT)
    else l ++ [r]) = (l ++ [r]).drop ((l ++ [r]).length - LEDGER_LIMIT)
  by_cases h : LEDGER_LIMIT < (l ++ [r]).length
  · rw [if_pos h]
  · rw [if_neg h, Nat.sub_eq_zero_of_le (le_of_not_lt h), List.drop_zero]

/-- Folding ledger appends from a short-enough accumulator keeps the newest
`LEDGER_LIMIT` entries of everything appended, in append order. -/
theorem foldl_ledgerAppend (xs : List ProcessedFile) :
    ∀ acc : List ProcessedFile, acc.length ≤ LEDGER_LIMIT →
      xs.foldl ledgerAppend acc =
        (acc ++ xs).drop ((acc ++ xs).length - LEDGER_LIMIT) := by
  induction xs with
  | nil =>
      intro acc h
      simp [Nat.sub_eq_zero_of_le h]
  | cons x xs ih =>
      intro acc h
      have hlen : (ledgerAppend acc x).length ≤ LEDGER_LIMIT := by
        rw [ledgerAppend_eq]
        simp only [List.length_drop, List.length_append, List.length_cons]
        omega
      rw [List.foldl_cons, ih (ledgerAppend acc x) hlen, ledgerAppend_eq]
      have hd : (acc ++ [x]).length - LEDGER_LIMIT ≤ (acc ++ [x]).length := by
        omega
      rw [← List.drop_append_of_le_length hd, List.drop_drop]
      have hl : acc ++ x :: xs = acc ++ [x] ++ xs := by simp
      rw [hl]
      have hi : (acc ++ [x]).length - LEDGER_LIMIT +
          ((List.drop ((acc ++ [x]).length - LEDGER_LIMIT)
            (acc ++ [x] ++ xs)).length - LEDGER_LIMIT) =
          (acc ++ [x] ++ xs).length - LEDGER_LIMIT := by
        simp only [List.length_drop, List.length_append, List.length_cons]
        omega
      rw [hi]

/-- C5: appending 1100 records to an initially empty ledger leaves exactly
the 1000 most recently appended records, in append order (the oldest 100
evicted), and after every intermediate append the ledger never holds more
than 1000 records. -/
theorem ledger_bound (xs : List ProcessedFile) (h : xs.length = 1100) :
    xs.foldl ledgerAppend [] = xs.drop 100 ∧
    (xs.foldl ledgerAppend []).length = 1000 ∧
    ∀ n : Nat, ((xs.take n).foldl ledgerAppend []).length ≤ 1000 := by
  have hL : LEDGER_LIMIT = 1000 := rfl
  have hmain := foldl_ledgerAppend xs [] (by simp)
  simp only [List.nil_append] at hmain
  refine ⟨?_, ?_, ?_⟩
  · rw [hmain, h, hL]
  · rw [hmain, h, hL]
    simp
    omega
  · intro n
    have htake := foldl_ledgerAppend (xs.take n) [] (by simp)
    simp only [List.nil_append] at htake
    rw [htake]
    simp [hL]
    omega

/-- Witness for C5: 1100 copies of one concrete record. -/
theorem ledger_bound_witness :
    (List.replicate 1100 (ProcessedFile.mk "a.mp3" 0 Status.success none
      none)).length = 1100 ∧
    ((List.replicate 1100 (ProcessedFile.mk "a.mp3" 0 Status.success none
        none)).foldl ledgerAppend [] =
      (List.replicate 1100 (ProcessedFile.mk "a.mp3" 0 Status.success none
        none)).drop 100 ∧
     ((List.replicate 1100 (ProcessedFile.mk "a.mp3" 0 Status.success none
        none)).foldl ledgerAppend []).length = 1000 ∧
     ∀ n : Nat,
       (((List.replicate 1100 (ProcessedFile.mk "a.mp3" 0 Status.success none
         none)).take n).foldl ledgerAppend []).length ≤ 1000) :=
  ⟨by simp, ledger_bound _ (by simp)⟩

/-- C6: when the first two remote attempts raise transient errors and the
third returns text `t`, a client configured with at least 3 retries performs
exactly two inter-attempt delays and `transcribe_file` returns `t`;
`transcribe_and_save` then reports the success dictionary whose
`transcript_length` is the length of `t` (and writes `t` to the output). -/
theorem retry_then_succeed (fp out : FileName)
    (attempts : Nat → Except String String) (maxRetries : Nat)
    (e0 e1 t : String) (hm : 3 ≤ maxRetries)
    (hsup : is_supported_file fp = true)
    (h0 : attempts 0 = .error e0) (h1 : attempts 1 = .error e1)
    (h2 : attempts 2 = .ok t) :
    transcribe_file fp true attempts maxRetries = (.ok t, 2) ∧
    transcribe_and_save fp out true attempts maxRetries true =
      .ok ({ status := "success", input_file := fp.name,
             output_file := out.name, transcript_length := t.length,
             error := none }, t) := by
  obtain ⟨k, rfl⟩ : ∃ k, maxRetries = k + 3 := ⟨maxRetries - 3, by omega⟩
  have hloop : transcribeLoop attempts (k + 3) (k + 3) 0 0 = (.ok t, 2) := by
    rw [transcribeLoop]
    simp only [h0]
    rw [if_neg (by omega : ¬ k + 2 = 0), transcribeLoop]
    simp only [h1]
    rw [if_neg (by omega : ¬ k + 1 = 0), transcribeLoop]
    simp only [h2]
  have hfile : transcribe_file fp true attempts (k + 3) = (.ok t, 2) := by
    rw [transcribe_file]
    simp [hsup, hloop]
  refine ⟨hfile, ?_⟩
  rw [transcribe_and_save, hfile]
  rfl

/-- Witness for C6: a concrete client failing twice then answering "hello",
with exactly 3 configured attempts. -/
theorem retry_then_succeed_witness :
    (3 : Nat) ≤ 3 ∧
    is_supported_file ⟨"a", ".mp3"⟩ = true ∧
    (fun i => if i = 0 then (Except.error "boom0" : Except String String)
      else if i = 1 then .error "boom1" else .ok "hello") 0 = .error "boom0" ∧
    (fun i => if i = 0 then (Except.error "boom0" : Except String String)
      else if i = 1 then .error "boom1" else .ok "hello") 1 = .error "boom1" ∧
    (fun i => if i = 0 then (Except.error "boom0" : Except String String)
      else if i = 1 then .error "boom1" else .ok "hello") 2 = .ok "hello" ∧
    (transcribe_file ⟨"a", ".mp3"⟩ true
      (fun i => if i = 0 then .error "boom0"
        else if i = 1 then .error "boom1" else .ok "hello") 3 =
      (.ok "hello", 2) ∧
     transcribe_and_save ⟨"a", ".mp3"⟩ ⟨"a", ".txt"⟩ true
      (fun i => if i = 0 then .error "boom0"
        else if i = 1 then .error "boom1" else .ok "hello") 3 true =
      .ok ({ status := "success", input_file := FileName.name ⟨"a", ".mp3"⟩,
             output_file := FileName.name ⟨"a", ".txt"⟩,
             transcript_length := "hello".length, error := none }, "hello")) :=
  ⟨le_refl 3, by decide, rfl, rfl, rfl,
    retry_then_succeed ⟨"a", ".mp3"⟩ ⟨"a", ".txt"⟩ _ 3 "boom0" "boom1"
      "hello" (le_refl 3) (by decide) rfl rfl rfl⟩

/-- C7: when the transcribe-and-save call raises, `_process_file` appends an
error record carrying the failure detail, does not touch the done directory,
leaves the source file in the input directory, and (being a total function
on the embedded state) lets nothing propagate past the pipeline. -/
theorem failure_keeps_source (fp : FileName) (pid : String) (now : Nat)
    (e : String) (s : ProcState) (hreg : s.registered = false)
    (hsrc : s.srcInInput = true) :
    (process_file fp pid now false (.error e) s).doneDir = s.doneDir ∧
    (process_file fp pid now false (.error e) s).srcInInput = true ∧
    (process_file fp pid now false (.error e) s).ledger =
      record_processed_file s.ledger fp now .error (some e) (some pid) ∧
    (process_file fp pid now false (.error e) s).registered = false ∧
    (process_file fp pid now false (.error e) s).transcribeCalls =
      s.transcribeCalls + 1 := by
  simp [process_file, hreg, hsrc]

/-- Witness for C7 on a fresh state holding one unrelated done file. -/
theorem failure_keeps_source_witness :
    (ProcState.mk false [] ["x.mp3"] true 0).registered = false ∧
    (ProcState.mk false [] ["x.mp3"] true 0).srcInInput = true ∧
    ((process_file ⟨"a", ".mp3"⟩ "id1" 7 false (.error "api down")
        (ProcState.mk false [] ["x.mp3"] true 0)).doneDir = ["x.mp3"] ∧
     (process_file ⟨"a", ".mp3"⟩ "id1" 7 false (.error "api down")
        (ProcState.mk false [] ["x.mp3"] true 0)).srcInInput = true ∧
     (process_file ⟨"a", ".mp3"⟩ "id1" 7 false (.error "api down")
        (ProcState.mk false [] ["x.mp3"] true 0)).ledger =
       record_processed_file [] ⟨"a", ".mp3"⟩ 7 .error (some "api down")
         (some "id1") ∧
     (process_file ⟨"a", ".mp3"⟩ "id1" 7 false (.error "api down")
        (ProcState.mk false [] ["x.mp3"] true 0)).registered = false ∧
     (process_file ⟨"a", ".mp3"⟩ "id1" 7 false (.error "api down")
        (ProcState.mk false [] ["x.mp3"] true 0)).transcribeCalls = 0 + 1) :=
  ⟨rfl, rfl,
    failure_keeps_source ⟨"a", ".mp3"⟩ "id1" 7 "api down"
      (ProcState.mk false [] ["x.mp3"] true 0) rfl rfl⟩

/-- C8: when the expected transcript already exists, `_process_file` makes no
transcription call (whatever the client would have answered), relocates the
source into the done directory (collision-safe), appends a skipped record
with reason "Transcript already exists", and ends the attempt. -/
theorem skip_existing_transcript (fp : FileName) (pid : String) (now : Nat)
    (tres : Except String String) (s : ProcState)
    (hreg : s.registered = false) (hsrc : s.srcInInput = true) :
    (process_file fp pid now true tres s).transcribeCalls =
      s.transcribeCalls ∧
    (process_file fp pid now true tres s).doneDir =
      (move_to_done true s.doneDir fp).2 ∧
    (process_file fp pid now true tres s).srcInInput = false ∧
    (process_file fp pid now true tres s).ledger =
      record_processed_file s.ledger fp now .skipped
        (some "Transcript already exists") (some pid) ∧
    (process_file fp pid now true tres s).registered = false := by
  simp [process_file, hreg, hsrc]

/-- Witness for C8: the transcript for "a.mp3" already exists; the source is
relocated and recorded as skipped without any client call. -/
theorem skip_existing_transcript_witness :
    (ProcState.mk false [] [] true 0).registered = false ∧
    (ProcState.mk false [] [] true 0).srcInInput = true ∧
    ((process_file ⟨"a", ".mp3"⟩ "id2" 9 true (.ok "t")
        (ProcState.mk false [] [] true 0)).transcribeCalls = 0 ∧
     (process_file ⟨"a", ".mp3"⟩ "id2" 9 true (.ok "t")
        (ProcState.mk false [] [] true 0)).doneDir =
       (move_to_done true [] ⟨"a", ".mp3"⟩).2 ∧
     (process_file ⟨"a", ".mp3"⟩ "id2" 9 true (.ok "t")
        (ProcState.mk false [] [] true 0)).srcInInput = false ∧
     (process_file ⟨"a", ".mp3"⟩ "id2" 9 true (.ok "t")
        (ProcState.mk false [] [] true 0)).ledger =
       record_processed_file [] ⟨"a", ".mp3"⟩ 9 .skipped
         (some "Transcript already exists") (some "id2") ∧
     (process_file ⟨"a", ".mp3"⟩ "id2" 9 true (.ok "t")
        (ProcState.mk false [] [] true 0)).registered = false) :=
  ⟨rfl, rfl,
    skip_existing_transcript ⟨"a", ".mp3"⟩ "id2" 9 (.ok "t")
      (ProcState.mk false [] [] true 0) rfl rfl⟩

/-- C9: relocation is collision-safe — a free name is used as is, a missing
source returns immediately with nothing moved, and on collision the numeric
suffixes _1, _2, … are tried in order, as the concrete test.mp3 scenarios
show, never disturbing the pre-existing entries. -/
theorem collision_safe_relocation (done : List String) (fp : FileName)
    (hfree : fp.name ∉ done) :
    move_to_done true done fp = (some fp.name, done ++ [fp.name]) ∧
    move_to_done false done fp = (none, done) ∧
    move_to_done true ["test.mp3"] ⟨"test", ".mp3"⟩ =
      (some "test_1.mp3", ["test.mp3", "test_1.mp3"]) ∧
    move_to_done true ["test.mp3", "test_1.mp3"] ⟨"test", ".mp3"⟩ =
      (some "test_2.mp3", ["test.mp3", "test_1.mp3", "test_2.mp3"]) := by
  refine ⟨?_, rfl, by decide, by decide⟩
  rw [move_to_done]
  simp only [Bool.not_true, Bool.false_eq_true, if_false]
  rw [collisionLoop, if_neg hfree]

/-- Witness for C9 at a done directory holding one other file. -/
theorem collision_safe_relocation_witness :
    (FileName.name ⟨"test", ".mp3"⟩ ∉ ["other.mp3"]) ∧
    (move_to_done true ["other.mp3"] ⟨"test", ".mp3"⟩ =
      (some (FileName.name ⟨"test", ".mp3"⟩),
        ["other.mp3"] ++ [FileName.name ⟨"test", ".mp3"⟩]) ∧
     move_to_done false ["other.mp3"] ⟨"test", ".mp3"⟩ =
      (none, ["other.mp3"]) ∧
     move_to_done true ["test.mp3"] ⟨"test", ".mp3"⟩ =
      (some "test_1.mp3", ["test.mp3", "test_1.mp3"]) ∧
     move_to_done true ["test.mp3", "test_1.mp3"] ⟨"test", ".mp3"⟩ =
      (some "test_2.mp3", ["test.mp3", "test_1.mp3", "test_2.mp3"])) :=
  ⟨by decide,
    collision_safe_relocation ["other.mp3"] ⟨"test", ".mp3"⟩ (by decide)⟩

/-- C10: a remote transcription that completes without error but yields no
text makes `transcribe_file` return the empty string at once — a success,
with zero inter-attempt delays — so `transcribe_and_save` writes an empty
output and reports success with `transcript_length` 0, and the pipeline
relocates the source and appends a success record. -/
theorem empty_transcript_success (fp out : FileName)
    (attempts : Nat → Except String String) (maxRetries : Nat)
    (pid : String) (now : Nat) (s : ProcState)
    (hm : 1 ≤ maxRetries) (hsup : is_supported_file fp = true)
    (h0 : attempts 0 = .ok "") (hreg : s.registered = false)
    (hsrc : s.srcInInput = true) :
    transcribe_file fp true attempts maxRetries = (.ok "", 0) ∧
    transcribe_and_save fp out true attempts maxRetries true =
      .ok ({ status := "success", input_file := fp.name,
             output_file := out.name, transcript_length := 0,
             error := none }, "") ∧
    (process_file fp pid now false (.ok "") s).srcInInput = false ∧
    (process_file fp pid now false (.ok "") s).doneDir =
      (move_to_done true s.doneDir fp).2 ∧
    (process_file fp pid now false (.ok "") s).ledger =
      record_processed_file s.ledger fp now .success none (some pid) := by
  obtain ⟨k, rfl⟩ : ∃ k, maxRetries = k + 1 := ⟨maxRetries - 1, by omega⟩
  have hloop : transcribeLoop attempts (k + 1) (k + 1) 0 0 = (.ok "", 0) := by
    rw [transcribeLoop]
    simp only [h0]
  have hfile : transcribe_file fp true attempts (k + 1) = (.ok "", 0) := by
    rw [transcribe_file]
    simp [hsup, hloop]
  refine ⟨hfile, ?_, ?_, ?_, ?_⟩
  · rw [transcribe_and_save, hfile]
    rfl
  · simp [process_file, hreg, hsrc]
  · simp [process_file, hreg, hsrc]
  · simp [process_file, hreg, hsrc]

/-- Witness for C10: a client answering the empty string on the first
attempt, one configured attempt, and a fresh pipeline state. -/
theorem empty_transcript_success_witness :
    (1 : Nat) ≤ 1 ∧
    is_supported_file ⟨"a", ".mp3"⟩ = true ∧
    (fun _ : Nat => (Except.ok "" : Except String String)) 0 = .ok "" ∧
    (ProcState.mk false [] [] true 0).registered = false ∧
    (ProcState.mk false [] [] true 0).srcInInput = true ∧
    (transcribe_file ⟨"a", ".mp3"⟩ true (fun _ => .ok "") 1 = (.ok "", 0) ∧
     transcribe_and_save ⟨"a", ".mp3"⟩ ⟨"a", ".txt"⟩ true (fun _ => .ok "") 1
        true =
      .ok ({ status := "success", input_file := FileName.name ⟨"a", ".mp3"⟩,
             output_file := FileName.name ⟨"a", ".txt"⟩,
             transcript_length := 0, error := none }, "") ∧
     (process_file ⟨"a", ".mp3"⟩ "id3" 4 false (.ok "")
        (ProcState.mk false [] [] true 0)).srcInInput = false ∧
     (process_file ⟨"a", ".mp3"⟩ "id3" 4 false (.ok "")
        (ProcState.mk false [] [] true 0)).doneDir =
       (move_to_done true [] ⟨"a", ".mp3"⟩).2 ∧
     (process_file ⟨"a", ".mp3"⟩ "id3" 4 false (.ok "")
        (ProcState.mk false [] [] true 0)).ledger =
       record_processed_file [] ⟨"a", ".mp3"⟩ 4 .success none (some "id3")) :=
  ⟨le_refl 1, by decide, rfl, rfl, rfl,
    empty_transcript_success ⟨"a", ".mp3"⟩ ⟨"a", ".txt"⟩ (fun _ => .ok "") 1
      "id3" 4 (ProcState.mk false [] [] true 0) (le_refl 1) (by decide) rfl
      rfl rfl⟩

end AutoTranscript
